import Mathlib

/-!
Shallow embedding of the lesson access-control and progress-tracking core of
the CourseThing application, together with theorems checking the
natural-language specification against the code.

The definitions below are translated from:
* `src/app/learn/page.tsx` (client learner surface: lesson ordering,
  access gate, sidebar rendering, progress calculation),
* the course tRPC router (`getLessonCompletions`, `markLessonCompleted`,
  `unmarkLessonCompleted`, admin-gated CRUD mutations),
* `src/server/auth/utils/is-admin.ts` (admin allow-list),
* the CreatiFun subscription verification module
  (`checkCreativeFunCustomer`),
* the home page continue-learning resolver.
-/

namespace CourseThing

/-- Lesson status enum from the Prisma schema: `DRAFT | PUBLISHED | ARCHIVED`. -/
inductive LessonStatus where
  | DRAFT
  | PUBLISHED
  | ARCHIVED
deriving DecidableEq, Repr

/-- The fields of a lesson record that the learner surface logic reads
(`id`, `order`, `status`); other fields (title, content, kind, …) do not
influence any claim. -/
structure Lesson where
  id : String
  order : Int
  status : LessonStatus
deriving DecidableEq, Repr

/-- The fields of a chapter record read by the learner surface:
`id`, `order`, and its owned lessons. -/
structure Chapter where
  id : String
  order : Int
  lessons : List Lesson
deriving DecidableEq, Repr

/-- The fields of a course record read by the learner surface.  `audience`
is `some "FREE"` for free courses and `none` for premium ones. -/
structure Course where
  id : String
  slug : String
  audience : Option String
  chapters : List Chapter
  lessons : List Lesson
deriving DecidableEq, Repr

/-- Comparison used by `.sort((a, b) => a.order - b.order)` on lessons. -/
def lessonLE (a b : Lesson) : Prop := a.order ≤ b.order

instance : DecidableRel lessonLE := fun a b => inferInstanceAs (Decidable (a.order ≤ b.order))

instance : IsTotal Lesson lessonLE := ⟨fun a b => Int.le_total a.order b.order⟩

instance : IsTrans Lesson lessonLE := ⟨fun _ _ _ => Int.le_trans⟩

/-- Comparison used by `.sort((a, b) => a.order - b.order)` on chapters. -/
def chapterLE (a b : Chapter) : Prop := a.order ≤ b.order

instance : DecidableRel chapterLE := fun a b => inferInstanceAs (Decidable (a.order ≤ b.order))

instance : IsTotal Chapter chapterLE := ⟨fun a b => Int.le_total a.order b.order⟩

instance : IsTrans Chapter chapterLE := ⟨fun _ _ _ => Int.le_trans⟩

/-- `[...xs].sort((a, b) => a.order - b.order)` for lessons: a stable sort by
`order` ascending (ECMAScript `Array.prototype.sort` is stable). -/
def sortLessons (xs : List Lesson) : List Lesson := List.insertionSort lessonLE xs

/-- `[...course.chapters].sort((a, b) => a.order - b.order)`. -/
def sortChapters (xs : List Chapter) : List Chapter := List.insertionSort chapterLE xs

/-- `l.status === "PUBLISHED"`. -/
def isPublished (l : Lesson) : Bool := l.status = LessonStatus.PUBLISHED

namespace LearnPage

/-- The `lessons` useMemo of `LearnPage`, chapter part:
`[...course.chapters].sort(byOrder).flatMap(ch =>
   [...ch.lessons].filter(l => l.status === "PUBLISHED").sort(byOrder))`. -/
def chapterLessonsOrdered (course : Course) : List Lesson :=
  (sortChapters course.chapters).flatMap fun ch => sortLessons (ch.lessons.filter isPublished)

/-- The `lessons` useMemo of `LearnPage`, standalone part:
`[...course.lessons].filter(l => l.status === "PUBLISHED").sort(byOrder)`. -/
def standaloneLessonsOrdered (course : Course) : List Lesson :=
  sortLessons (course.lessons.filter isPublished)

/-- The `lessons` useMemo of `LearnPage`: the resolved learner-facing
sequence `[...chapterLessonsOrdered, ...standaloneLessonsOrdered]`. -/
def lessons (course : Course) : List Lesson :=
  chapterLessonsOrdered course ++ standaloneLessonsOrdered course

/-- `const firstLessonId = lessons[0]?.id ?? null`. -/
def firstLessonId (course : Course) : Option String :=
  (lessons course).head?.map Lesson.id

/-- `const isFreeCourse = course?.audience === 'FREE'`. -/
def isFreeCourse (course : Course) : Bool := course.audience = some "FREE"

/-- `const isFirstLesson = !!firstLessonId && lesson.id === firstLessonId`.
JavaScript truthiness: a `null` or empty-string `firstLessonId` is falsy. -/
def isFirstLesson (fid : Option String) (lesson : Lesson) : Bool :=
  match fid with
  | none => false
  | some s => !(s = "") && lesson.id = s

/-- `const locked = !isFirstLesson && (!isAuthed || (!isFreeCourse && !isCustomer))`. -/
def locked (fid : Option String) (lesson : Lesson)
    (isAuthed isFree isCustomer : Bool) : Bool :=
  !(isFirstLesson fid lesson) && (!isAuthed || (!isFree && !isCustomer))

/-- `const lockReason = !isAuthed ? 'auth' : !isFreeCourse && !isCustomer ?
'subscription' : null`. -/
def lockReason (isAuthed isFree isCustomer : Bool) : Option String :=
  if !isAuthed then some "auth"
  else if !isFree && !isCustomer then some "subscription"
  else none

/-- The verdict the learner surface produces for one lesson: whether it is
openable, and, when locked, the displayed reason. -/
def gateVerdict (fid : Option String) (lesson : Lesson)
    (isAuthed isFree isCustomer : Bool) : Bool × Option String :=
  if locked fid lesson isAuthed isFree isCustomer then
    (false, lockReason isAuthed isFree isCustomer)
  else (true, none)

/-- The sidebar navigation's rendered lesson list: each chapter contributes
`chapter.lessons.filter(l => l.status === "PUBLISHED")`, and the standalone
block renders `course?.lessons?.map(...)` with NO status filter. -/
def sidebarLessons (course : Course) : List Lesson :=
  (course.chapters.flatMap fun ch => ch.lessons.filter isPublished) ++ course.lessons

/-- `Math.round` on a non-negative rational: round half away from zero,
which for non-negative inputs is `⌊q + 1/2⌋`. -/
def jsRound (q : ℚ) : ℤ := ⌊q + 1/2⌋

/-- `const completedCount = optimisticIds.length`. -/
def completedCount (completedIds : List String) : Nat := completedIds.length

/-- `const progressPercent = totalLessons > 0 ?
Math.round((completedCount / totalLessons) * 100) : 0`. -/
def progressPercent (lessonsSeq : List Lesson) (completedIds : List String) : ℤ :=
  let totalLessons := lessonsSeq.length
  if totalLessons > 0 then
    jsRound (((completedCount completedIds : ℚ) / (totalLessons : ℚ)) * 100)
  else 0

end LearnPage

/-! Server-side database model, as the course tRPC router sees it. -/

/-- A lesson row.  `courseId` is nullable since the chapters migration
(`ALTER COLUMN "courseId" DROP NOT NULL`): a lesson belongs either directly
to a course (`courseId` set, `chapterId` null) or to a chapter
(`chapterId` set, `courseId` null). -/
structure DbLesson where
  id : String
  courseId : Option String
  chapterId : Option String
  status : LessonStatus
  order : Int
deriving DecidableEq, Repr

/-- A chapter row: owned by exactly one course (`courseId NOT NULL`). -/
structure DbChapter where
  id : String
  courseId : String
  order : Int
deriving DecidableEq, Repr

/-- A course row; `audience` is `some "FREE"` or `none` (premium). -/
structure DbCourse where
  id : String
  slug : String
  audience : Option String
deriving DecidableEq, Repr

/-- A `LessonCompletion` row: unique per `(userId, lessonId)`, with the
`completedAt` timestamp (modelled as milliseconds). -/
structure DbCompletion where
  userId : String
  lessonId : String
  completedAt : Nat
deriving DecidableEq, Repr

/-- The database state read and written by the router. -/
structure Db where
  courses : List DbCourse
  chapters : List DbChapter
  lessons : List DbLesson
  completions : List DbCompletion
deriving DecidableEq, Repr

namespace Router

/-- `getLessonCompletions`: `lessonCompletion.findMany(where: makeUserId,
lesson: makeCourseId, select: lessonId)` — the relation filter
`lesson: { courseId: input.courseId }` keeps a completion only when its
related lesson row has `courseId` equal to the input (chapter-owned lessons
have `courseId` null). -/
def getLessonCompletions (db : Db) (userId courseId : String) : List String :=
  (db.completions.filter fun c =>
      c.userId = userId &&
        db.lessons.any fun l => l.id = c.lessonId && l.courseId = some courseId).map
    DbCompletion.lessonId

/-- `markLessonCompleted`: an upsert keyed on `userId_lessonId` whose
update clause is empty and whose create clause holds the user and lesson
ids — it inserts a new completion at the current time when none exists, and
changes nothing when one does. -/
def markLessonCompleted (db : Db) (userId lessonId : String) (now : Nat) : Db :=
  if db.completions.any fun c => c.userId = userId && c.lessonId = lessonId then db
  else { db with completions := db.completions ++ [⟨userId, lessonId, now⟩] }

/-- `unmarkLessonCompleted`: `lessonCompletion.deleteMany(where: userId,
lessonId)` — deletes the matching completion when present, no-op otherwise. -/
def unmarkLessonCompleted (db : Db) (userId lessonId : String) : Db :=
  { db with completions :=
      db.completions.filter fun c => !(c.userId = userId && c.lessonId = lessonId) }

/-- The set of lesson ids a user has completed, read off the store. -/
def completedIdsOf (db : Db) (userId : String) : List String :=
  (db.completions.filter fun c => c.userId = userId).map DbCompletion.lessonId

/-- Rewrites every lesson row's status by an arbitrary id-indexed map,
leaving all other data untouched.  Used to state that the completion
mutations never consult lesson status. -/
def setStatuses (db : Db) (f : String → LessonStatus) : Db :=
  { db with lessons := db.lessons.map fun l => { l with status := f l.id } }

/-- Rewrites every course row's audience, leaving all other data untouched.
Used to state that the completion mutations never consult course audience. -/
def setAudiences (db : Db) (f : String → Option String) : Db :=
  { db with courses := db.courses.map fun c => { c with audience := f c.id } }

end Router

/-! Admin allow-list (`is-admin.ts`) and the admin-only mutations. -/

/-- The module-level allow-list of `is-admin.ts`: split `ADMIN_EMAILS` on
commas, trim each entry, lower-case, drop empties; an all-whitespace or
missing variable yields no admins. -/
def adminEmailSet (raw : String) : List String :=
  if raw.trim = "" then []
  else ((raw.splitOn ",").map fun e => e.trim.toLower).filter fun e => decide (e ≠ "")

/-- `isAdminEmail(email)`: false for a missing or empty email, otherwise a
case-insensitive membership test against the allow-list. -/
def isAdminEmail (raw : String) (email : Option String) : Bool :=
  match email with
  | none => false
  | some e => if e = "" then false else (adminEmailSet raw).contains e.toLower

/-- The tRPC error codes thrown by the router paths modelled here. -/
inductive TrpcError where
  | forbidden
  | badRequest
  | notFound
deriving DecidableEq, Repr

/-- `ensureAdmin(email)`: throws `FORBIDDEN ("Admin only")` unless
`isAdminEmail(email)` holds. -/
def ensureAdmin (raw : String) (email : Option String) : Except TrpcError Unit :=
  if !(isAdminEmail raw email) then .error .forbidden else .ok ()

namespace Router

/-- The admin-only mutations of the course router, with the payload fields
that reach persistence. -/
inductive AdminMutation where
  | createCourse (c : DbCourse)
  | updateCourse (c : DbCourse)
  | deleteCourse (id : String)
  | addLesson (l : DbLesson)
  | updateLesson (l : DbLesson)
  | deleteLesson (id : String)
  | createChapter (ch : DbChapter)
  | updateChapter (ch : DbChapter)
  | deleteChapter (id : String)
  | reorderChapters (courseId : String) (chapterIds : List String)
deriving DecidableEq, Repr

/-- The persistence effect of each admin mutation, once past `ensureAdmin`
(creates append, deletes filter, updates map, reorder rewrites `order` to
the index in the submitted id list). -/
def applyAdminMutation (m : AdminMutation) (db : Db) : Db :=
  match m with
  | .createCourse c => { db with courses := db.courses ++ [c] }
  | .updateCourse c =>
      { db with courses := db.courses.map fun old => if old.id = c.id then c else old }
  | .deleteCourse id => { db with courses := db.courses.filter fun c => !(c.id = id) }
  | .addLesson l => { db with lessons := db.lessons ++ [l] }
  | .updateLesson l =>
      { db with lessons := db.lessons.map fun old => if old.id = l.id then l else old }
  | .deleteLesson id => { db with lessons := db.lessons.filter fun l => !(l.id = id) }
  | .createChapter ch => { db with chapters := db.chapters ++ [ch] }
  | .updateChapter ch =>
      { db with chapters := db.chapters.map fun old => if old.id = ch.id then ch else old }
  | .deleteChapter id => { db with chapters := db.chapters.filter fun ch => !(ch.id = id) }
  | .reorderChapters _ ids =>
      { db with chapters := db.chapters.map fun ch =>
          match ids.indexOf? ch.id with
          | some i => { ch with order := (i : Int) }
          | none => ch }

/-- Each admin mutation handler in the router calls `ensureAdmin` on the
session email before touching the database; only then does the persistence
statement run. -/
def runAdminMutation (raw : String) (email : Option String)
    (m : AdminMutation) (db : Db) : Except TrpcError Db :=
  (ensureAdmin raw email).bind fun _ => .ok (applyAdminMutation m db)

end Router

/-! Home page continue-learning resolver. -/

namespace HomePage

/-- A `LessonCompletion` row as it exists in the database for the current
user: row id and `completedAt` timestamp. -/
structure HomeCompletion where
  id : String
  completedAt : Nat
deriving DecidableEq, Repr

/-- The completion record the home page query actually selects:
`lessonCompletions: select: id only` — `completedAt` is NOT selected. -/
structure SelectedCompletion where
  id : String
deriving DecidableEq, Repr

/-- A row of the `lessonsWithCompletion` query before the select: the
lesson's own fields, its course/chapter back-references, and the current
user's completions of it (at most one by the unique constraint). -/
structure HomeRow where
  id : String
  order : Int
  courseId : Option String
  chapterId : Option String
  courseSlug : Option String
  chapterCourseId : Option String
  chapterCourseSlug : Option String
  completions : List HomeCompletion
deriving DecidableEq, Repr

/-- The same row after the Prisma `select`: each completion keeps only its
`id` field. -/
structure HomeRowSelected where
  id : String
  order : Int
  courseId : Option String
  chapterId : Option String
  courseSlug : Option String
  chapterCourseId : Option String
  chapterCourseSlug : Option String
  lessonCompletions : List SelectedCompletion
deriving DecidableEq, Repr

/-- The Prisma `select` applied to a row: drops `completedAt` from each
completion. -/
def selectRow (r : HomeRow) : HomeRowSelected :=
  ⟨r.id, r.order, r.courseId, r.chapterId, r.courseSlug, r.chapterCourseId,
    r.chapterCourseSlug, r.completions.map fun c => ⟨c.id⟩⟩

/-- JavaScript `a || b` on two nullable strings (an empty string is falsy). -/
def jsOrString (a b : Option String) : Option String :=
  match a with
  | some s => if s = "" then b else some s
  | none => b

/-- JavaScript truthiness of a nullable string. -/
def truthy (o : Option String) : Bool :=
  match o with
  | some s => !(s = "")
  | none => false

/-- `const courseId = lesson.courseId || lesson.chapter?.courseId`. -/
def rowCourseId (r : HomeRowSelected) : Option String :=
  jsOrString r.courseId r.chapterCourseId

/-- `const courseSlug = lesson.course?.slug || lesson.chapter?.course?.slug`. -/
def rowSlug (r : HomeRowSelected) : Option String :=
  jsOrString r.courseSlug r.chapterCourseSlug

/-- The key set of the `courseLessons` Map in insertion order: a row is
grouped only when its course id and course slug are both truthy. -/
def groupKeys (rows : List HomeRowSelected) : List String :=
  rows.foldl
    (fun acc r =>
      match rowCourseId r with
      | some cid =>
          if cid = "" then acc
          else if truthy (rowSlug r) then
            if acc.contains cid then acc else acc ++ [cid]
          else acc
      | none => acc)
    []

/-- The rows pushed under one course key of the `courseLessons` Map. -/
def groupRows (rows : List HomeRowSelected) (cid : String) : List HomeRowSelected :=
  rows.filter fun r => rowCourseId r = some cid && !(cid = "") && truthy (rowSlug r)

/-- Comparison used by `lessons.sort((a, b) => a.order - b.order)` on rows. -/
def rowLE (a b : HomeRowSelected) : Prop := a.order ≤ b.order

instance : DecidableRel rowLE := fun a b => inferInstanceAs (Decidable (a.order ≤ b.order))

/-- Per-course scan: sort the course's rows by `order`, then return
`slug ++ "?lesson=" ++ id` of the first row with no completion and a truthy
slug. -/
def courseFirstIncomplete (rows : List HomeRowSelected) (cid : String) : Option String :=
  let sorted := List.insertionSort rowLE (groupRows rows cid)
  (sorted.filter fun r => r.lessonCompletions.length = 0).findSome? fun r =>
    match rowSlug r with
    | some s => if s = "" then none else some (s ++ "?lesson=" ++ r.id)
    | none => none

/-- The first-incomplete-lesson loop over the Map's keys in insertion
order. -/
def firstIncompleteTarget (rows : List HomeRowSelected) : Option String :=
  (groupKeys rows).findSome? (courseFirstIncomplete rows)

/-- `new Date(c.completedAt || 0).getTime()` evaluated on a selected
completion record: `completedAt` was not among the selected fields, so the
expression reads `undefined`, and `undefined || 0` is `0`. -/
def selectedCompletedAtMs (_c : SelectedCompletion) : Int := 0

/-- The fallback's sort comparator over two rows, reading
`lessonCompletions[0]` of each: returns `0` when either is absent, else the
difference of the (always-zero) selected timestamps. -/
def fallbackCmp (a b : HomeRowSelected) : Int :=
  match a.lessonCompletions.head?, b.lessonCompletions.head? with
  | some ca, some cb => selectedCompletedAtMs cb - selectedCompletedAtMs ca
  | _, _ => 0

/-- Relation form of a JavaScript comparator for a stable sort
(`cmp a b ≤ 0` means `a` may stay before `b`). -/
def cmpLE (a b : HomeRowSelected) : Prop := fallbackCmp a b ≤ 0

instance : DecidableRel cmpLE := fun a b => inferInstanceAs (Decidable (fallbackCmp a b ≤ 0))

/-- The most-recent-completion fallback:
`lessonsWithCompletion.filter(hasCompletion).sort(fallbackCmp)[0]`, then its
course slug when truthy. -/
def fallbackSlug (rows : List HomeRowSelected) : Option String :=
  if rows.length > 0 then
    match (List.insertionSort cmpLE (rows.filter fun r => r.lessonCompletions.length > 0)).head? with
    | some r =>
        match rowSlug r with
        | some s => if s = "" then none else some s
        | none => none
    | none => none
  else none

/-- `continueCourseSlug` as computed by the home page: the first-incomplete
scan, falling back to the (intended) most-recent-completion pick. -/
def continueCourseSlug (rows : List HomeRowSelected) : Option String :=
  match firstIncompleteTarget rows with
  | some s => some s
  | none => fallbackSlug rows

/-- Modelled from the spec: the course whose most recent completion
timestamp is latest among all rows, returning that course's slug — the
behavior step 4 of the continue-learning contract prescribes for the
fallback. -/
def mostRecentCompletionSlugSpec (rows : List HomeRow) : Option String :=
  let completed := rows.filter fun r => r.completions.length > 0
  let best := completed.foldl
    (fun acc r =>
      match acc with
      | none => some r
      | some b =>
          let tb := (b.completions.map HomeCompletion.completedAt).foldl max 0
          let tr := (r.completions.map HomeCompletion.completedAt).foldl max 0
          if tr > tb then some r else some b)
    none
  best.bind fun r => jsOrString r.courseSlug r.chapterCourseSlug

end HomePage

/-! Subscription verification (`checkCreativeFunCustomer`). -/

/-- The possible outcomes of the external verification fetch: the 10-second
abort signal fired, the fetch or JSON parse threw, or an HTTP response
arrived with an `ok` flag and an optional `isCustomer` body field. -/
inductive FetchOutcome where
  | timeout
  | thrown
  | response (ok : Bool) (isCustomer : Option Bool)
deriving DecidableEq, Repr

/-- The timeout passed to `AbortSignal.timeout` in the verification call:
10000 milliseconds. -/
def subscriptionTimeoutMs : Nat := 10000

/-- `checkCreativeFunCustomer(email)`: false for an empty email; a fired
abort signal or a thrown error lands in the catch and returns false; a
non-ok response returns false; otherwise the result is
`data.isCustomer === true`. -/
def checkCreativeFunCustomer (email : String) (outcome : FetchOutcome) : Bool :=
  if email = "" then false
  else
    match outcome with
    | .timeout => false
    | .thrown => false
    | .response ok isCustomer => if !ok then false else isCustomer = some true

/-! Specification-side definitions, used to compare the code against the
spec's wording. -/

/-- The access-gate contract as the specification words it, keyed on the
lesson's position in the resolved sequence, with the rules evaluated in the
spec's order: position 0 always allowed; else unauthenticated denied
`"auth"`; else premium without subscription denied `"subscription"`; else
allowed. -/
def canAccessSpec (p : Nat) (isAuthed premium isSubscribed : Bool) : Bool × Option String :=
  if p = 0 then (true, none)
  else if !isAuthed then (false, some "auth")
  else if premium && !isSubscribed then (false, some "subscription")
  else (true, none)

/-- All lessons reachable from a course: the lessons of its chapters
followed by its standalone lessons. -/
def allLessons (course : Course) : List Lesson :=
  (course.chapters.flatMap Chapter.lessons) ++ course.lessons

/-- A small concrete course used to instantiate hypotheses: one chapter
with two published lessons and one published standalone lesson. -/
def exCourse : Course :=
  ⟨"c1", "spanish-101", none,
    [⟨"ch1", 0, [⟨"l1", 0, .PUBLISHED⟩, ⟨"l2", 1, .PUBLISHED⟩]⟩],
    [⟨"l3", 0, .PUBLISHED⟩]⟩

/-- The learner-surface gate verdict, for an arbitrary resolved sequence
with pairwise-distinct non-empty lesson ids, agrees with the spec's
positional contract. -/
theorem gateVerdict_eq_spec (S : List Lesson) (p : Nat) (hp : p < S.length)
    (hnodup : (S.map Lesson.id).Nodup) (hids : ∀ l ∈ S, l.id ≠ "")
    (isAuthed isFree isCustomer : Bool) :
    LearnPage.gateVerdict (S.head?.map Lesson.id) (S.get ⟨p, hp⟩) isAuthed isFree isCustomer
      = canAccessSpec p isAuthed (!isFree) isCustomer := by
  match S, hp with
  | a :: t, hp =>
    match p, hp with
    | 0, _ =>
      have ha : a.id ≠ "" := hids a (List.mem_cons_self a t)
      simp [LearnPage.gateVerdict, LearnPage.locked, LearnPage.isFirstLesson,
        canAccessSpec, ha]
    | q + 1, hp =>
      have hq : q < t.length := Nat.lt_of_succ_lt_succ hp
      have hmem : t.get ⟨q, hq⟩ ∈ t := List.get_mem t q hq
      have hnotin : a.id ∉ t.map Lesson.id := (List.nodup_cons.mp hnodup).1
      have hid : (t.get ⟨q, hq⟩).id ≠ a.id := by
        intro h
        exact hnotin (h ▸ List.mem_map_of_mem Lesson.id hmem)
      have hid' : t[q].id ≠ a.id := by simpa [List.get_eq_getElem] using hid
      cases isAuthed <;> cases isFree <;> cases isCustomer <;>
        simp [LearnPage.gateVerdict, LearnPage.locked, LearnPage.isFirstLesson,
          LearnPage.lockReason, canAccessSpec, hid, hid']

/-- C1: for every course, viewer state, and lesson at position `p` of the
resolved sequence (distinct non-empty lesson ids assumed), the learner
surface's gate allows the lesson at position 0 unconditionally, otherwise
denies with reason `"auth"` for an unauthenticated viewer, otherwise denies
with reason `"subscription"` for a non-`FREE` course without subscription,
otherwise allows — exactly the spec's ordered rules. -/
theorem access_gate_matches_spec (course : Course) (isAuthed isCustomer : Bool)
    (p : Nat) (hp : p < (LearnPage.lessons course).length)
    (hnodup : ((LearnPage.lessons course).map Lesson.id).Nodup)
    (hids : ∀ l ∈ LearnPage.lessons course, l.id ≠ "") :
    LearnPage.gateVerdict (LearnPage.firstLessonId course)
        ((LearnPage.lessons course).get ⟨p, hp⟩) isAuthed
        (LearnPage.isFreeCourse course) isCustomer
      = canAccessSpec p isAuthed (!(LearnPage.isFreeCourse course)) isCustomer :=
  gateVerdict_eq_spec (LearnPage.lessons course) p hp hnodup hids isAuthed
    (LearnPage.isFreeCourse course) isCustomer

/-- Witness for C1: on the concrete course, the anonymous viewer is denied
the lesson at position 1 with reason `"auth"`. -/
theorem access_gate_matches_spec_witness :
    (1 < (LearnPage.lessons exCourse).length
      ∧ ((LearnPage.lessons exCourse).map Lesson.id).Nodup
      ∧ ∀ l ∈ LearnPage.lessons exCourse, l.id ≠ "")
    ∧ LearnPage.gateVerdict (LearnPage.firstLessonId exCourse)
        ((LearnPage.lessons exCourse).get ⟨1, by decide⟩) false
        (LearnPage.isFreeCourse exCourse) false
      = canAccessSpec 1 false (!(LearnPage.isFreeCourse exCourse)) false :=
  ⟨⟨by decide, by decide, by decide⟩,
    access_gate_matches_spec exCourse false false 1 (by decide) (by decide) (by decide)⟩

/-- C2: the resolved sequence is a permutation of the `PUBLISHED` lessons
reachable from the course (so no omissions and, per multiplicity, no
duplicates); it is duplicate-free when the course's lessons are; an empty
course yields the empty sequence; and it is structured as chapters sorted
by `order` ascending, each contributing its `PUBLISHED` lessons sorted by
`order` ascending, followed by the standalone `PUBLISHED` lessons sorted by
`order` ascending. -/
theorem lesson_ordering_resolver_correct (course : Course)
    (hnd : (allLessons course).Nodup) :
    (LearnPage.lessons course).Perm ((allLessons course).filter isPublished)
    ∧ (LearnPage.lessons course).Nodup
    ∧ (course.chapters = [] → course.lessons = [] → LearnPage.lessons course = [])
    ∧ LearnPage.lessons course
        = (sortChapters course.chapters).flatMap
            (fun ch => sortLessons (ch.lessons.filter isPublished))
          ++ sortLessons (course.lessons.filter isPublished)
    ∧ List.Sorted chapterLE (sortChapters course.chapters)
    ∧ (sortChapters course.chapters).Perm course.chapters
    ∧ List.Forall (List.Sorted lessonLE)
        ((sortChapters course.chapters).map
          fun ch => sortLessons (ch.lessons.filter isPublished))
    ∧ List.Sorted lessonLE (sortLessons (course.lessons.filter isPublished))
    ∧ (sortLessons (course.lessons.filter isPublished)).Perm
        (course.lessons.filter isPublished) := by
  have hperm : (LearnPage.lessons course).Perm ((allLessons course).filter isPublished) := by
    unfold LearnPage.lessons LearnPage.chapterLessonsOrdered
      LearnPage.standaloneLessonsOrdered allLessons
    rw [List.filter_append, List.filter_flatMap]
    exact List.Perm.append
      (((List.Perm.flatMap_left (sortChapters course.chapters)
            (fun ch _ => List.perm_insertionSort lessonLE (ch.lessons.filter isPublished))).trans
        (List.Perm.flatMap_right _ (List.perm_insertionSort chapterLE course.chapters))))
      (List.perm_insertionSort lessonLE (course.lessons.filter isPublished))
  refine ⟨hperm, hperm.symm.nodup (hnd.filter isPublished), ?_, rfl,
    List.sorted_insertionSort chapterLE course.chapters,
    List.perm_insertionSort chapterLE course.chapters, ?_,
    List.sorted_insertionSort lessonLE (course.lessons.filter isPublished),
    List.perm_insertionSort lessonLE (course.lessons.filter isPublished)⟩
  · intro h1 h2
    simp [LearnPage.lessons, LearnPage.chapterLessonsOrdered,
      LearnPage.standaloneLessonsOrdered, h1, h2, sortChapters, sortLessons]
  · rw [List.forall_iff_forall_mem]
    intro x hx
    obtain ⟨ch, _, rfl⟩ := List.mem_map.mp hx
    exact List.sorted_insertionSort lessonLE (ch.lessons.filter isPublished)

/-- Witness for C2: the concrete course has duplicate-free lessons and the
resolver produces the expected structured sequence. -/
theorem lesson_ordering_resolver_correct_witness :
    (allLessons exCourse).Nodup
    ∧ (LearnPage.lessons exCourse).Perm ((allLessons exCourse).filter isPublished)
    ∧ (LearnPage.lessons exCourse).Nodup :=
  ⟨by decide,
    (lesson_ordering_resolver_correct exCourse (by decide)).1,
    (lesson_ordering_resolver_correct exCourse (by decide)).2.1⟩

/-- A lesson row lies within a course when it sits directly on the course
or is owned by one of the course's chapters — the scope the spec gives
`getCompletedLessonIds`. -/
def lessonWithinCourse (db : Db) (l : DbLesson) (courseId : String) : Prop :=
  l.courseId = some courseId ∨
    ∃ ch ∈ db.chapters, l.chapterId = some ch.id ∧ ch.courseId = courseId

/-- Failing input for C3: course `c1` owns chapter `ch1`; lesson `l1` is
owned by the chapter, so its `courseId` column is null; user `u1` has
completed it. -/
def exLesson3 : DbLesson := ⟨"l1", none, some "ch1", .PUBLISHED, 0⟩

/-- The database for the C3 failing input. -/
def exDb3 : Db :=
  ⟨[⟨"c1", "spanish-101", none⟩], [⟨"ch1", "c1", 0⟩], [exLesson3],
    [⟨"u1", "l1", 100⟩]⟩

/-- C3 (code bug): `getLessonCompletions` filters by the lesson's direct
`courseId` column, which is null for chapter-owned lessons, so the
completed chapter lesson `l1` — within course `c1` and completed by `u1` —
is missing from the returned ids. -/
theorem getLessonCompletions_misses_chapter_lessons :
    Router.getLessonCompletions exDb3 "u1" "c1" = []
    ∧ exLesson3 ∈ exDb3.lessons
    ∧ lessonWithinCourse exDb3 exLesson3 "c1"
    ∧ (⟨"u1", "l1", 100⟩ : DbCompletion) ∈ exDb3.completions := by
  refine ⟨rfl, by decide, ?_, by decide⟩
  exact Or.inr ⟨⟨"ch1", "c1", 0⟩, by decide, rfl, rfl⟩

/-- `|sequence ∩ completedIds|` as the spec words the progress contract. -/
def specCompletedCount (seq : List Lesson) (completedIds : List String) : Nat :=
  (seq.filter fun l => completedIds.contains l.id).length

/-- Counterexample input for C4: a one-lesson sequence, with the completed
ids holding that lesson plus a completed lesson outside the sequence (for
example an unpublished one, which `markLessonCompleted` accepts). -/
def exSeq4 : List Lesson := [⟨"a", 0, .PUBLISHED⟩]

/-- The completed-ids list for the C4 counterexample. -/
def exCompleted4 : List String := ["a", "b"]

/-- Counterexample for C4: the page computes `completedCount` as the plain
length of the completed-ids list (here 2) rather than the intersection with
the sequence (here 1), and its `progressPercent` is 200, not the claimed
`round(100 · |S ∩ C| / |S|) = 100`. -/
theorem progress_calculator_claim_false :
    ¬ (LearnPage.completedCount exCompleted4 = specCompletedCount exSeq4 exCompleted4
       ∧ LearnPage.progressPercent exSeq4 exCompleted4
          = LearnPage.jsRound
              ((100 * (specCompletedCount exSeq4 exCompleted4 : ℚ)) / (exSeq4.length : ℚ))) := by
  intro h
  exact absurd h.1 (by decide)

/-- C4 (amended): the progress calculator returns
`completedCount = |completedIds|` — the completed list's plain length, with
no intersection against the sequence — and
`progressPercent = round(100 · completedCount / len(sequence))`, defined as
0 on the empty sequence. -/
theorem progress_calculator_amended (seq : List Lesson) (completedIds : List String) :
    LearnPage.completedCount completedIds = completedIds.length
    ∧ LearnPage.progressPercent seq completedIds
        = (if seq.length = 0 then 0
           else LearnPage.jsRound ((100 * (completedIds.length : ℚ)) / (seq.length : ℚ))) := by
  refine ⟨rfl, ?_⟩
  unfold LearnPage.progressPercent
  by_cases h : seq.length = 0
  · simp [h]
  · have h' : 0 < seq.length := Nat.pos_of_ne_zero h
    simp only [h', if_pos, h, if_neg, LearnPage.completedCount]
    congr 1
    ring

/-- The database for the C5 counterexample: user `u1` has already completed
lesson `l1` before the round trip begins. -/
def exDb5 : Db := ⟨[], [], [⟨"l1", some "c1", none, .PUBLISHED, 0⟩], [⟨"u1", "l1", 50⟩]⟩

/-- The database for the C5 amended witness: no completion yet. -/
def exDb5clean : Db := ⟨[], [], [⟨"l1", some "c1", none, .PUBLISHED, 0⟩], []⟩

/-- Counterexample for C5: when the lesson was already completed,
`markLessonCompleted` is a no-op (empty upsert update) but
`unmarkLessonCompleted` deletes the pre-existing completion, so the
round trip does not restore the pre-mark completed set. -/
theorem mark_unmark_roundtrip_claim_false :
    Router.completedIdsOf
        (Router.unmarkLessonCompleted
          (Router.markLessonCompleted exDb5 "u1" "l1" 60) "u1" "l1") "u1"
      ≠ Router.completedIdsOf exDb5 "u1" := by decide

/-- C5 (amended): `markLessonCompleted` then `unmarkLessonCompleted` leaves
the completion store equal to the pre-mark store with every `(u, l)`
completion removed; when `(u, l)` was not completed beforehand this
restores the pre-mark state exactly. -/
theorem mark_unmark_roundtrip_amended (db : Db) (u l : String) (now : Nat) :
    (Router.unmarkLessonCompleted (Router.markLessonCompleted db u l now) u l).completions
      = db.completions.filter (fun c => !(c.userId = u && c.lessonId = l))
    ∧ ((db.completions.all fun c => !(c.userId = u && c.lessonId = l)) →
        Router.unmarkLessonCompleted (Router.markLessonCompleted db u l now) u l = db) := by
  constructor
  · unfold Router.unmarkLessonCompleted Router.markLessonCompleted
    by_cases h : db.completions.any fun c => c.userId = u && c.lessonId = l
    · simp [h]
    · simp [h, List.filter_append]
  · intro hall
    have hfilter : db.completions.filter (fun c => !(c.userId = u && c.lessonId = l))
        = db.completions := List.filter_eq_self.mpr (fun c hc => List.all_eq_true.mp hall c hc)
    have hnone : ¬ db.completions.any fun c => c.userId = u && c.lessonId = l := by
      intro h
      obtain ⟨c, hc, hcc⟩ := List.any_eq_true.mp h
      have := List.all_eq_true.mp hall c hc
      simp [hcc] at this
    have hfilter' : List.filter
        (fun c => !decide (c.userId = u) || !decide (c.lessonId = l)) db.completions
        = db.completions := by simpa using hfilter
    unfold Router.unmarkLessonCompleted Router.markLessonCompleted
    simp [hnone, List.filter_append, hfilter, hfilter']

/-- Witness for C5's amended statement: with no pre-existing completion the
round trip is the identity on the store. -/
theorem mark_unmark_roundtrip_amended_witness :
    (exDb5clean.completions.all fun c => !(c.userId = "u1" && c.lessonId = "l1"))
    ∧ Router.unmarkLessonCompleted
        (Router.markLessonCompleted exDb5clean "u1" "l1" 60) "u1" "l1" = exDb5clean :=
  ⟨by decide, (mark_unmark_roundtrip_amended exDb5clean "u1" "l1" 60).2 (by decide)⟩

/-- Failing input for C6, first row: the single published lesson of course
`a` (slug `course-a`), completed by the viewer at time 1. -/
def exRow6a : HomePage.HomeRow :=
  ⟨"la", 0, some "a", none, some "course-a", none, none, [⟨"cpa", 1⟩]⟩

/-- Failing input for C6, second row: the single published lesson of course
`b` (slug `course-b`), completed by the viewer at time 2 — the most recent
completion. -/
def exRow6b : HomePage.HomeRow :=
  ⟨"lb", 0, some "b", none, some "course-b", none, none, [⟨"cpb", 2⟩]⟩

/-- The C6 failing rows in the query's `courseId asc` order. -/
def exRows6 : List HomePage.HomeRow := [exRow6a, exRow6b]

/-- C6 (code bug): with every lesson completed, the fallback is meant to
resume the course with the latest completion (course `b`, completed at
time 2), but the query never selects `completedAt`, so the sort comparator
always returns 0 and the code resumes the first completed course in
traversal order (course `a`). -/
theorem continue_fallback_ignores_timestamp :
    HomePage.continueCourseSlug (exRows6.map HomePage.selectRow) = some "course-a"
    ∧ HomePage.mostRecentCompletionSlugSpec exRows6 = some "course-b"
    ∧ ("course-a" : String) ≠ "course-b" := by decide

/-- The draft standalone lesson of the C7 failing input. -/
def exDraft7 : Lesson := ⟨"d1", 0, .DRAFT⟩

/-- Failing input for C7: a course whose only standalone lesson is a
`DRAFT`. -/
def exCourse7 : Course := ⟨"c7", "x-course", some "FREE", [], [exDraft7]⟩

/-- C7 (code bug): the sidebar's standalone block maps over
`course?.lessons` without a status filter, so the `DRAFT` standalone lesson
is rendered in the sidebar navigation even though the resolved sequence
(correctly) excludes it. -/
theorem sidebar_shows_unpublished_standalone :
    exDraft7 ∈ LearnPage.sidebarLessons exCourse7
    ∧ exDraft7.status = LessonStatus.DRAFT
    ∧ exDraft7 ∉ LearnPage.lessons exCourse7 := by decide

/-- C8: the verification call's abort timeout is the fixed 10000 ms, and
for every email the check returns false on a timeout, a thrown error, or a
non-ok response — it returns true exactly when a non-empty email gets an ok
response whose body says `isCustomer: true` (fail-closed). -/
theorem subscription_check_fail_closed (email : String) (outcome : FetchOutcome) :
    subscriptionTimeoutMs = 10000
    ∧ checkCreativeFunCustomer email FetchOutcome.timeout = false
    ∧ checkCreativeFunCustomer email FetchOutcome.thrown = false
    ∧ (∀ b, checkCreativeFunCustomer email (FetchOutcome.response false b) = false)
    ∧ (checkCreativeFunCustomer email outcome = true ↔
        (email ≠ "" ∧ outcome = FetchOutcome.response true (some true))) := by
  refine ⟨rfl, ?_, ?_, ?_, ?_⟩
  · by_cases h : email = "" <;> simp [checkCreativeFunCustomer, h]
  · by_cases h : email = "" <;> simp [checkCreativeFunCustomer, h]
  · intro b
    by_cases h : email = "" <;> simp [checkCreativeFunCustomer, h]
  · by_cases h : email = ""
    · simp [checkCreativeFunCustomer, h]
    · cases outcome with
      | timeout => simp [checkCreativeFunCustomer, h]
      | thrown => simp [checkCreativeFunCustomer, h]
      | response ok isCustomer =>
          cases ok <;> simp [checkCreativeFunCustomer, h]

/-- A database for the C9 witness. -/
def exDb9 : Db := ⟨[⟨"c1", "spanish-101", none⟩], [], [], []⟩

/-- C9: every admin-only mutation (course create/update/delete, chapter
create/update/delete/reorder, lesson add/update/delete) called with an
email outside the allow-list fails with `FORBIDDEN` before any persistence
effect — the error return carries no updated state. -/
theorem admin_mutations_reject_non_admins (raw : String) (email : Option String)
    (m : Router.AdminMutation) (db : Db)
    (h : isAdminEmail raw email = false) :
    Router.runAdminMutation raw email m db = Except.error TrpcError.forbidden := by
  simp [Router.runAdminMutation, ensureAdmin, h, Except.bind]

/-- Witness for C9: a caller with no session email is outside every
allow-list, and their `deleteCourse` is rejected with `FORBIDDEN`. -/
theorem admin_mutations_reject_non_admins_witness :
    isAdminEmail "admin@example.com" none = false
    ∧ Router.runAdminMutation "admin@example.com" none
        (Router.AdminMutation.deleteCourse "c1") exDb9
      = Except.error TrpcError.forbidden :=
  ⟨rfl,
    admin_mutations_reject_non_admins "admin@example.com" none
      (Router.AdminMutation.deleteCourse "c1") exDb9 rfl⟩

/-- C10: `markLessonCompleted` always records the `(user, lesson)`
completion and touches nothing else; it commutes with arbitrary rewrites of
every lesson's status and of every course's audience, so the mutation
consults neither the lesson's published status nor the course's audience
(and it takes no subscription or sequence-position input at all). -/
theorem markLessonCompleted_ignores_gating (db : Db) (u lessonId : String) (now : Nat)
    (f : String → LessonStatus) (g : String → Option String) :
    ((Router.markLessonCompleted db u lessonId now).completions.any
        fun c => c.userId = u && c.lessonId = lessonId)
    ∧ (Router.markLessonCompleted db u lessonId now).lessons = db.lessons
    ∧ (Router.markLessonCompleted db u lessonId now).courses = db.courses
    ∧ Router.markLessonCompleted (Router.setStatuses db f) u lessonId now
        = Router.setStatuses (Router.markLessonCompleted db u lessonId now) f
    ∧ Router.markLessonCompleted (Router.setAudiences db g) u lessonId now
        = Router.setAudiences (Router.markLessonCompleted db u lessonId now) g := by
  by_cases h : db.completions.any fun c => c.userId = u && c.lessonId = lessonId
  · refine ⟨by simp [Router.markLessonCompleted, h], ?_, ?_, ?_, ?_⟩ <;>
      simp [Router.markLessonCompleted, Router.setStatuses, Router.setAudiences, h]
  · refine ⟨?_, ?_, ?_, ?_, ?_⟩ <;>
      simp [Router.markLessonCompleted, Router.setStatuses, Router.setAudiences, h]

end CourseThing
